import Mathlib

/-!
Verification of the booking/payment lifecycle of the cocoa-code backend.

The repository is an Express/Sequelize application.  The definitions below
are a shallow embedding of the route handlers and ORM calls that the
specification's claims are about:

* `createBooking`        — POST / in src/routes/bookings.js (lines 33-177)
* `createBookingChecked` — POST / in src/unnamed/part_003 (lines 65-233),
                           the variant with the monthly capacity check
* `checkAvailability`    — GET /availability/:month in src/unnamed/part_003
                           (lines 15-62), the counting variant
* `checkAvailabilityUnlimited` — GET /availability/:month in
                           src/routes/bookings.js (lines 15-30)
* `approveBooking` / `declineBooking` — POST /:id/approve and /:id/decline
                           in src/routes/bookings.js (lines 212-293)
* `serverStatusRoute`    — POST /api/bookings/:id/approve and /:id/decline
                           in src/server.js (lines 397-714)
* `confirmPaymentSimple` — POST /confirm in src/routes/payments.js (lines 35-58)
* `confirmPayment`       — POST /confirm in the payments router appended to
                           src/routes/bookings.js (lines 475-562)

The relational store (Clients, Projects, Payments, from src/models) is a `DB`
record of lists; each handler is a pure function from a request and the
current `DB` to a response and the next `DB`.  Failure of external
collaborators (the availability count query, the notification email, the
multi-strategy status update) is passed in as an explicit boolean, mirroring
the try/catch structure of the handlers.  JSON string fields that may be
absent are `Option String`, with `none` for `undefined` and `""` also falsy,
as in JavaScript.  Decimal amounts are modelled as integers.
-/

namespace CocoaCode

/-- Project.status.  The model enum in src/unnamed/part_000 lists
('pending','in_progress','completed','cancelled'); the route handlers in
addition write 'approved' and 'declined' (src/routes/bookings.js lines
230-233 and 272-275), so the state space is the union of the two. -/
inductive ProjectStatus where
  | pending
  | approved
  | declined
  | in_progress
  | completed
  | cancelled
deriving DecidableEq

/-- Payment.paymentStatus, from src/models/Payment.js
(ENUM 'pending','completed','failed','refunded'). -/
inductive PaymentStatus where
  | pending
  | completed
  | failed
  | refunded
deriving DecidableEq

/-- A row of the clients table (src/models/Client.js): id, name,
email (unique).  The nullable phone column is never touched by the
lifecycle routes and is omitted. -/
structure Client where
  id : Nat
  name : String
  email : String
deriving DecidableEq

/-- A row of the projects table (src/unnamed/part_000, second variant). -/
structure Project where
  id : Nat
  clientId : Nat
  projectType : String
  specifications : String
  websiteType : String
  primaryColor : String
  secondaryColor : String
  accentColor : String
  basePrice : Int
  totalPrice : Int
  bookingMonth : Option String
  status : ProjectStatus
deriving DecidableEq

/-- A row of the payments table (src/models/Payment.js). -/
structure Payment where
  id : Nat
  projectId : Nat
  amount : Int
  paymentMethod : String
  paymentStatus : PaymentStatus
  stripePaymentId : Option String
  transactionReference : Option String
deriving DecidableEq

/-- The relational store: the three tables plus the auto-increment
counters of their integer primary keys. -/
structure DB where
  clients : List Client
  projects : List Project
  payments : List Payment
  nextClientId : Nat
  nextProjectId : Nat
  nextPaymentId : Nat
deriving DecidableEq

/-- The empty database: no rows, all auto-increment counters at 1. -/
def emptyDB : DB :=
  { clients := [], projects := [], payments := [],
    nextClientId := 1, nextProjectId := 1, nextPaymentId := 1 }

/-- A character admitted by the character class `[^\s@]` of the email
regex: anything but (ASCII) whitespace and the at sign. -/
def isEmailChar (c : Char) : Bool :=
  !(c = ' ' ∨ c = '\t' ∨ c = '\n' ∨ c = '\r' ∨ c = '\x0b' ∨ c = '\x0c' ∨ c = '@')

/-- Whether the list has a '.' that is neither its first nor its last
element, i.e. can be split as `[^\s@]+ '.' [^\s@]+` once all elements are
known to be email characters. -/
def hasInnerDot (b : List Char) : Bool :=
  ((b.drop 1).dropLast).contains '.'

/-- The email validation regex `/^[^\s@]+@[^\s@]+\.[^\s@]+$/` of
src/routes/bookings.js line 65 (identical in src/unnamed/part_003 line 97).
Since `[^\s@]` excludes '@', a matching string has exactly one '@'; it
matches iff the part before the '@' is a nonempty run of email characters
and the part after it is a run of email characters containing a '.' that is
neither its first nor its last character. -/
def emailRegexTest (s : String) : Bool :=
  let l := s.toList
  let localPart := l.takeWhile (fun c => !(c = '@'))
  match l.dropWhile (fun c => !(c = '@')) with
  | [] => false
  | _ :: domain =>
      !localPart.isEmpty && localPart.all isEmailChar &&
        domain.all isEmailChar && hasInnerDot domain

/-- JavaScript `x || d` for an optional string field: `undefined` and the
empty string are falsy. -/
def strOr (o : Option String) (d : String) : String :=
  match o with
  | some s => if s = "" then d else s
  | none => d

/-- JavaScript `x || null` for an optional string field. -/
def strOrNull (o : Option String) : Option String :=
  match o with
  | some s => if s = "" then none else some s
  | none => none

/-- JavaScript `parseFloat(x) || 0` for an optional numeric field
(`parseFloat(undefined)` is `NaN`, which is falsy). -/
def numOr0 (o : Option Int) : Int := o.getD 0

/-- The body of POST / : the destructured fields of `req.body`
(src/routes/bookings.js lines 41-53).  `clientName`/`clientEmail` are
required; `""` models a missing or empty (falsy) value. -/
structure BookingRequest where
  clientName : String
  clientEmail : String
  projectSpecs : Option String := none
  websiteType : Option String := none
  bookingMonth : Option String := none
  projectType : Option String := none
  basePrice : Option Int := none
  totalPrice : Option Int := none
  primaryColor : Option String := none
  secondaryColor : Option String := none
  accentColor : Option String := none
deriving DecidableEq

/-- Outcome of the booking-creation handlers. -/
inductive BookingResult where
  /-- 400, 'Client name and email are required'. -/
  | missingFields
  /-- 400, 'Please provide a valid email address'. -/
  | invalidEmail
  /-- 400, '... is fully booked (current/max slots taken)'. -/
  | capacityError (current : Nat) (max : Nat)
  /-- 201, with the new project id, the client id and the emailSent flag. -/
  | created (projectId : Nat) (clientId : Nat) (emailSent : Bool)
deriving DecidableEq

/-- HTTP status code of a `BookingResult`. -/
def BookingResult.httpStatus : BookingResult → Nat
  | .missingFields => 400
  | .invalidEmail => 400
  | .capacityError _ _ => 400
  | .created _ _ _ => 201

/-- Whether the result is one of the two input-validation rejections. -/
def BookingResult.isValidationError : BookingResult → Bool
  | .missingFields => true
  | .invalidEmail => true
  | _ => false

/-- `Client.findOne` by email, the lookup half of `Client.findOrCreate`
with `where: email` (src/routes/bookings.js lines 89-95). -/
def findClientByEmail (db : DB) (email : String) : Option Client :=
  db.clients.find? (fun c => decide (c.email = email))

/-- `Client.findOrCreate` with `where: email` and
`defaults: name, email`: returns the first client with that email if one
exists (leaving the store untouched), otherwise inserts a fresh client row
with the given name and email (src/routes/bookings.js lines 89-95). -/
def clientFindOrCreate (db : DB) (name email : String) : Client × DB :=
  match findClientByEmail db email with
  | some c => (c, db)
  | none =>
      let c : Client := { id := db.nextClientId, name := name, email := email }
      (c, { db with clients := db.clients ++ [c],
                    nextClientId := db.nextClientId + 1 })

/-- The `projectData` object built for `Project.create`
(src/routes/bookings.js lines 109-123): fallback defaults for the optional
fields, status 'pending', `bookingMonth || null`. -/
def buildProjectData (db : DB) (client : Client) (req : BookingRequest) : Project :=
  { id := db.nextProjectId
    clientId := client.id
    projectType := strOr req.projectType "service-only"
    specifications := strOr req.projectSpecs "No specifications provided"
    websiteType := strOr req.websiteType "other"
    primaryColor := strOr req.primaryColor "#8B4513"
    secondaryColor := strOr req.secondaryColor "#D2B48C"
    accentColor := strOr req.accentColor "#CD853F"
    basePrice := numOr0 req.basePrice
    totalPrice := numOr0 req.totalPrice
    bookingMonth := strOrNull req.bookingMonth
    status := ProjectStatus.pending }

/-- `Project.create(projectData)`: append the row and advance the
auto-increment counter. -/
def insertProject (db : DB) (p : Project) : DB :=
  { db with projects := db.projects ++ [p],
            nextProjectId := db.nextProjectId + 1 }

/-- `Project.count({ where: bookingMonth = m, status ≠ 'cancelled' })`
(src/unnamed/part_003 lines 121-126 and 33-38). -/
def countActiveForMonth (db : DB) (m : String) : Nat :=
  db.projects.countP
    (fun p => decide (p.bookingMonth = some m ∧ p.status ≠ ProjectStatus.cancelled))

/-- The shared tail of both POST / booking handlers once validation (and,
in the checked variant, the capacity check) has passed: find-or-create the
client, create the 'pending' project, attempt the confirmation email
(`emailOk` is whether `sendBookingConfirmation` succeeded; its failure is
caught and only recorded in the `emailSent` flag), and answer 201
(src/routes/bookings.js lines 86-161). -/
def createBookingCore (db : DB) (req : BookingRequest) (emailOk : Bool) :
    BookingResult × DB :=
  let fc := clientFindOrCreate db req.clientName req.clientEmail
  let project := buildProjectData fc.2 fc.1 req
  (BookingResult.created project.id fc.1.id emailOk, insertProject fc.2 project)

/-- POST / of src/routes/bookings.js (lines 33-177): validate the required
fields and the email format, then find-or-create the client and create the
project.  This variant performs NO monthly capacity check. -/
def createBooking (db : DB) (req : BookingRequest) (emailOk : Bool) :
    BookingResult × DB :=
  if req.clientName = "" ∨ req.clientEmail = "" then
    (BookingResult.missingFields, db)
  else if emailRegexTest req.clientEmail then
    createBookingCore db req emailOk
  else
    (BookingResult.invalidEmail, db)

/-- POST / of src/unnamed/part_003 (lines 65-233): same validation, but
with the monthly capacity check `if (projectType && projectType !==
'service-only' && bookingMonth)` before creating anything.  `countThrows`
is whether the `Project.count` query threw; the catch block logs
'Availability check failed, continuing' and proceeds without the check
(lines 134-136). -/
def createBookingChecked (db : DB) (req : BookingRequest)
    (countThrows emailOk : Bool) : BookingResult × DB :=
  if req.clientName = "" ∨ req.clientEmail = "" then
    (BookingResult.missingFields, db)
  else if emailRegexTest req.clientEmail then
    match req.projectType, req.bookingMonth with
    | some pt, some m =>
        if pt ≠ "" ∧ pt ≠ "service-only" ∧ m ≠ "" then
          if countThrows then
            createBookingCore db req emailOk
          else if 4 ≤ countActiveForMonth db m then
            (BookingResult.capacityError (countActiveForMonth db m) 4, db)
          else
            createBookingCore db req emailOk
        else
          createBookingCore db req emailOk
    | _, _ => createBookingCore db req emailOk
  else
    (BookingResult.invalidEmail, db)

/-- The JSON answered by GET /availability/:month. -/
structure AvailabilityResponse where
  available : Bool
  currentBookings : Nat
  month : String
  maxBookings : Nat
deriving DecidableEq

/-- GET /availability/:month of src/unnamed/part_003 (lines 15-62), the
counting variant: count the non-cancelled projects of the month and answer
`available = count < 4` with `maxBookings 4`.  `countThrows` is whether the
count query threw; the catch block answers 200 with `available: true,
currentBookings: 0` "to not block bookings" (lines 51-61). -/
def checkAvailability (db : DB) (m : String) (countThrows : Bool) :
    AvailabilityResponse × DB :=
  if countThrows then
    ({ available := true, currentBookings := 0, month := m, maxBookings := 4 }, db)
  else
    let c := countActiveForMonth db m
    ({ available := decide (c < 4), currentBookings := c, month := m,
       maxBookings := 4 }, db)

/-- GET /availability/:month of src/routes/bookings.js (lines 15-30): no
database access at all, always `available: true, currentBookings: 0,
maxBookings: 999999`. -/
def checkAvailabilityUnlimited (db : DB) (m : String) :
    AvailabilityResponse × DB :=
  ({ available := true, currentBookings := 0, month := m,
     maxBookings := 999999 }, db)

/-- `Project.findByPk(id)`. -/
def findProject (db : DB) (id : Nat) : Option Project :=
  db.projects.find? (fun p => decide (p.id = id))

/-- `Project.update({ status }, { where: id })` / `project.update({ status })`:
overwrite the status of the row(s) with that id. -/
def updateProjectStatus (db : DB) (id : Nat) (s : ProjectStatus) : DB :=
  { db with projects :=
      db.projects.map (fun p => if p.id = id then { p with status := s } else p) }

/-- Outcome of the simplified approve/decline routers. -/
inductive StatusUpdateResult where
  /-- 404, 'Booking not found'. -/
  | notFound
  /-- 200, success with the project id and its (updated) status. -/
  | ok (projectId : Nat) (status : ProjectStatus)
deriving DecidableEq

/-- POST /:id/approve of src/routes/bookings.js (lines 212-251): find the
project by primary key and UNCONDITIONALLY update its status to 'approved'
(no check of the previous status). -/
def approveBooking (db : DB) (id : Nat) : StatusUpdateResult × DB :=
  match findProject db id with
  | none => (StatusUpdateResult.notFound, db)
  | some p =>
      (StatusUpdateResult.ok p.id ProjectStatus.approved,
       updateProjectStatus db id ProjectStatus.approved)

/-- POST /:id/decline of src/routes/bookings.js (lines 254-293): find the
project by primary key and UNCONDITIONALLY update its status to 'declined'. -/
def declineBooking (db : DB) (id : Nat) : StatusUpdateResult × DB :=
  match findProject db id with
  | none => (StatusUpdateResult.notFound, db)
  | some p =>
      (StatusUpdateResult.ok p.id ProjectStatus.declined,
       updateProjectStatus db id ProjectStatus.declined)

/-- Outcome of the server.js approve/decline routes. -/
inductive ServerRouteResult where
  /-- 404, 'Booking not found'. -/
  | notFound
  /-- 500, 'Failed to update booking status' after all three update
  strategies failed; the row keeps its current status. -/
  | updateFailed (current : ProjectStatus)
  /-- 200, `success: true` with the new status and the emailSent flag. -/
  | ok (status : ProjectStatus) (emailSent : Bool)
deriving DecidableEq

/-- POST /api/bookings/:id/approve and /:id/decline of src/server.js
(lines 397-714).  The two routes are identical up to the status written
('approved' vs 'declined') and the email template, so they are modelled by
one function taking `newStatus`.  `updateOk` is whether any of the three
fallback update strategies (ORM update, direct save, raw SQL) succeeded;
`emailOk` is whether the notification email was sent.  The email attempt
happens AFTER the status update, inside its own try/catch: its failure only
sets `emailSent: false` in the 200 response and never rolls the update
back. -/
def serverStatusRoute (db : DB) (id : Nat) (newStatus : ProjectStatus)
    (updateOk emailOk : Bool) : ServerRouteResult × DB :=
  match findProject db id with
  | none => (ServerRouteResult.notFound, db)
  | some p =>
      if updateOk then
        (ServerRouteResult.ok newStatus emailOk,
         updateProjectStatus db id newStatus)
      else
        (ServerRouteResult.updateFailed p.status, db)

/-- POST /confirm of src/routes/payments.js (lines 35-58): on every call,
CREATE a fresh Payment row with `paymentStatus: 'completed'` for the given
project and intent id, then unconditionally `Project.update({ status:
'in_progress' })` for the project — with no look at the project's current
status and no lookup of an existing Payment for the same intent. -/
def confirmPaymentSimple (db : DB) (projectId : Nat) (paymentIntentId : String)
    (paymentMethod : String) (amount : Int) : DB :=
  let payment : Payment :=
    { id := db.nextPaymentId, projectId := projectId, amount := amount,
      paymentMethod := paymentMethod,
      paymentStatus := PaymentStatus.completed,
      stripePaymentId := some paymentIntentId, transactionReference := none }
  let db1 := { db with payments := db.payments ++ [payment],
                       nextPaymentId := db.nextPaymentId + 1 }
  updateProjectStatus db1 projectId ProjectStatus.in_progress

/-- The switch on `paymentIntent.status` of the intent-based POST /confirm
(src/routes/bookings.js lines 507-529), mapping the gateway status to the
pair (paymentStatus, projectStatus). -/
def stripeStatusMapping (s : String) : PaymentStatus × ProjectStatus :=
  if s = "succeeded" then (PaymentStatus.completed, ProjectStatus.in_progress)
  else if s = "processing" then (PaymentStatus.pending, ProjectStatus.pending)
  else if s = "requires_payment_method" ∨ s = "requires_confirmation" ∨
          s = "requires_action" then (PaymentStatus.pending, ProjectStatus.pending)
  else if s = "canceled" then (PaymentStatus.failed, ProjectStatus.cancelled)
  else (PaymentStatus.failed, ProjectStatus.pending)

/-- Outcome of the intent-based POST /confirm. -/
inductive ConfirmResult where
  /-- 400, 'Payment intent ID is required'. -/
  | missingIntentId
  /-- 404, 'Payment record not found'. -/
  | paymentNotFound
  /-- 200, with the computed payment and project statuses. -/
  | processed (paymentStatus : PaymentStatus) (projectStatus : ProjectStatus)
deriving DecidableEq

/-- POST /confirm of the payments router appended to src/routes/bookings.js
(lines 475-562): find the Payment by `stripePaymentId`, update its status
from the gateway's intent status (`stripeStatus`, reported by the external
gateway), and — whenever a `projectId` was supplied and the payment became
'completed' — unconditionally update that project's status, with no look at
the project's current status. -/
def confirmPayment (db : DB) (paymentIntentId : Option String)
    (projectId : Option Nat) (stripeStatus : String) : ConfirmResult × DB :=
  match paymentIntentId with
  | none => (ConfirmResult.missingIntentId, db)
  | some pid =>
      match db.payments.find? (fun p => decide (p.stripePaymentId = some pid)) with
      | none => (ConfirmResult.paymentNotFound, db)
      | some payment =>
          let ps := stripeStatusMapping stripeStatus
          let upd := fun (p : Payment) =>
            if p.id = payment.id then
              { p with paymentStatus := ps.1, transactionReference := some pid }
            else p
          let db1 := { db with payments := db.payments.map upd }
          let db2 := match projectId with
            | some pj =>
                if ps.1 = PaymentStatus.completed then
                  updateProjectStatus db1 pj ps.2
                else db1
            | none => db1
          (ConfirmResult.processed ps.1 ps.2, db2)

/-! ### Concrete fixtures used by the counterexamples and witnesses -/

/-- A project row with the fixed colour/price defaults, for building
concrete database states. -/
def mkProject (id clientId : Nat) (ptype : String) (month : Option String)
    (status : ProjectStatus) : Project :=
  { id := id, clientId := clientId, projectType := ptype,
    specifications := "spec", websiteType := "other",
    primaryColor := "#8B4513", secondaryColor := "#D2B48C",
    accentColor := "#CD853F", basePrice := 0, totalPrice := 0,
    bookingMonth := month, status := status }

/-- A payment row for building concrete database states. -/
def mkPayment (id projectId : Nat) (status : PaymentStatus)
    (intent : Option String) : Payment :=
  { id := id, projectId := projectId, amount := 100,
    paymentMethod := "stripe", paymentStatus := status,
    stripePaymentId := intent, transactionReference := none }

/-- A booking request naming month "m" with the given email and project
type. -/
def c1Req (email ptype : String) : BookingRequest :=
  { clientName := "Ada", clientEmail := email,
    projectType := some ptype, bookingMonth := some "m" }

/-- First of five successive bookings for month "m", starting from the
empty store. -/
def c1S1 : BookingResult × DB :=
  createBookingChecked emptyDB (c1Req "a@x.co" "landing") false true

/-- Second booking for month "m". -/
def c1S2 : BookingResult × DB :=
  createBookingChecked c1S1.2 (c1Req "b@x.co" "landing") false true

/-- Third booking for month "m". -/
def c1S3 : BookingResult × DB :=
  createBookingChecked c1S2.2 (c1Req "c@x.co" "landing") false true

/-- Fourth booking for month "m"; the month is now at capacity. -/
def c1S4 : BookingResult × DB :=
  createBookingChecked c1S3.2 (c1Req "d@x.co" "landing") false true

/-- Fifth booking for month "m", of projectType 'service-only': the
capacity check is skipped for it. -/
def c1S5 : BookingResult × DB :=
  createBookingChecked c1S4.2 (c1Req "e@x.co" "service-only") false true

/-- A store holding one declined project (id 1). -/
def c2Db : DB :=
  { clients := [{ id := 1, name := "Ada", email := "a@x.co" }],
    projects := [mkProject 1 1 "landing" (some "m") ProjectStatus.declined],
    payments := [], nextClientId := 2, nextProjectId := 2, nextPaymentId := 1 }

/-- The store after POST /confirm for the declined project 1. -/
def c2Db1 : DB := confirmPaymentSimple c2Db 1 "pi_1" "stripe" 100

/-- The store after the admin declines project 1 again. -/
def c2Db2 : DB := (declineBooking c2Db1 1).2

/-- A store holding a declined project (id 1), a cancelled project (id 2),
and a declined project (id 3) with a pending payment intent "pi_3". -/
def c3Db : DB :=
  { clients := [{ id := 1, name := "Ada", email := "a@x.co" }],
    projects := [mkProject 1 1 "landing" (some "m") ProjectStatus.declined,
                 mkProject 2 1 "landing" (some "m") ProjectStatus.cancelled,
                 mkProject 3 1 "landing" (some "m") ProjectStatus.declined],
    payments := [mkPayment 1 3 PaymentStatus.pending (some "pi_3")],
    nextClientId := 2, nextProjectId := 4, nextPaymentId := 2 }

/-- A store holding a pending (never approved) project 1 with a pending
payment intent "pi_4". -/
def c4Db : DB :=
  { clients := [{ id := 1, name := "Ada", email := "a@x.co" }],
    projects := [mkProject 1 1 "landing" (some "m") ProjectStatus.pending],
    payments := [mkPayment 1 1 PaymentStatus.pending (some "pi_4")],
    nextClientId := 2, nextProjectId := 2, nextPaymentId := 2 }

/-- A store holding an approved project 1 with no payments yet. -/
def c5Db : DB :=
  { clients := [{ id := 1, name := "Ada", email := "a@x.co" }],
    projects := [mkProject 1 1 "landing" (some "m") ProjectStatus.approved],
    payments := [], nextClientId := 2, nextProjectId := 2, nextPaymentId := 1 }

/-- First delivery of the gateway outcome for intent "pi_5". -/
def c5Db1 : DB := confirmPaymentSimple c5Db 1 "pi_5" "stripe" 100

/-- Redelivery of the same gateway outcome for intent "pi_5". -/
def c5Db2 : DB := confirmPaymentSimple c5Db1 1 "pi_5" "stripe" 100

/-- A store holding an approved project 1 with a pending payment for
intent "pi_6", as left by POST /create-intent. -/
def c5DbI : DB :=
  { clients := [{ id := 1, name := "Ada", email := "a@x.co" }],
    projects := [mkProject 1 1 "landing" (some "m") ProjectStatus.approved],
    payments := [mkPayment 1 1 PaymentStatus.pending (some "pi_6")],
    nextClientId := 2, nextProjectId := 2, nextPaymentId := 2 }

/-- First delivery of succeeded for intent "pi_6" to the intent-based
confirm route. -/
def c5I1 : ConfirmResult × DB := confirmPayment c5DbI (some "pi_6") (some 1) "succeeded"

/-- Redelivery of succeeded for intent "pi_6". -/
def c5I2 : ConfirmResult × DB := confirmPayment c5I1.2 (some "pi_6") (some 1) "succeeded"

/-- A booking request whose clientEmail does not match the email regex. -/
def c6Req : BookingRequest :=
  { clientName := "Ada", clientEmail := "not-an-email" }

/-- An existing client with id 7. -/
def c7Client : Client := { id := 7, name := "Ada", email := "a@x.co" }

/-- A store already holding `c7Client`. -/
def c7Db : DB :=
  { clients := [c7Client], projects := [], payments := [],
    nextClientId := 8, nextProjectId := 1, nextPaymentId := 1 }

/-- A repeat booking from the email of `c7Client` under a different name. -/
def c7Req : BookingRequest :=
  { clientName := "Grace", clientEmail := "a@x.co",
    projectType := some "landing" }

/-- A store in which month "m" already holds four non-cancelled projects. -/
def c8Db : DB :=
  { clients := [{ id := 1, name := "Ada", email := "a@x.co" }],
    projects := [mkProject 1 1 "landing" (some "m") ProjectStatus.pending,
                 mkProject 2 1 "landing" (some "m") ProjectStatus.approved,
                 mkProject 3 1 "landing" (some "m") ProjectStatus.pending,
                 mkProject 4 1 "landing" (some "m") ProjectStatus.in_progress],
    payments := [], nextClientId := 2, nextProjectId := 5, nextPaymentId := 1 }

/-- A valid booking request with no month and no project type. -/
def c9Req : BookingRequest :=
  { clientName := "Ada", clientEmail := "a@x.co" }

/-- A pending project with id 3. -/
def c9Proj : Project := mkProject 3 1 "landing" (some "m") ProjectStatus.pending

/-- A store holding the pending project `c9Proj`. -/
def c9Db : DB :=
  { clients := [{ id := 1, name := "Ada", email := "a@x.co" }],
    projects := [c9Proj], payments := [],
    nextClientId := 2, nextProjectId := 4, nextPaymentId := 1 }

/-- A store in which month "m" already holds five non-cancelled projects:
over the capacity of 4. -/
def c10Db : DB :=
  { clients := [{ id := 1, name := "Ada", email := "a@x.co" }],
    projects := [mkProject 1 1 "landing" (some "m") ProjectStatus.pending,
                 mkProject 2 1 "landing" (some "m") ProjectStatus.pending,
                 mkProject 3 1 "landing" (some "m") ProjectStatus.pending,
                 mkProject 4 1 "landing" (some "m") ProjectStatus.pending,
                 mkProject 5 1 "landing" (some "m") ProjectStatus.pending],
    payments := [], nextClientId := 2, nextProjectId := 6, nextPaymentId := 1 }

/-- A booking request for a real (non service-only) project in the full
month "m". -/
def c10Req : BookingRequest :=
  { clientName := "Ada", clientEmail := "f@x.co",
    projectType := some "webapp", bookingMonth := some "m" }

/-! ### Helper lemmas about the store operations -/

/-- find-or-create never touches the projects table. -/
theorem clientFindOrCreate_projects (db : DB) (n e : String) :
    (clientFindOrCreate db n e).2.projects = db.projects := by
  unfold clientFindOrCreate
  cases findClientByEmail db e <;> rfl

/-- When a client with the given email already exists, find-or-create
returns it and leaves the store untouched. -/
theorem clientFindOrCreate_found (db : DB) (n e : String) (c0 : Client)
    (h : findClientByEmail db e = some c0) :
    clientFindOrCreate db n e = (c0, db) := by
  unfold clientFindOrCreate
  rw [h]

/-- The monthly count only looks at the projects table. -/
theorem countActiveForMonth_eq_of_projects (db db' : DB) (m : String)
    (h : db'.projects = db.projects) :
    countActiveForMonth db' m = countActiveForMonth db m := by
  unfold countActiveForMonth
  rw [h]

/-- Inserting a project changes the monthly count by one exactly when the
new row is a non-cancelled row of that month. -/
theorem countActiveForMonth_insertProject (db : DB) (p : Project) (m : String) :
    countActiveForMonth (insertProject db p) m =
      countActiveForMonth db m +
        (if p.bookingMonth = some m ∧ p.status ≠ ProjectStatus.cancelled
         then 1 else 0) := by
  unfold countActiveForMonth insertProject
  simp [List.countP_append, List.countP_cons]

/-- Effect of the shared creation tail on the monthly count: one new
'pending' row whose month is `bookingMonth || null`. -/
theorem countActiveForMonth_core (db : DB) (req : BookingRequest) (e : Bool)
    (m : String) :
    countActiveForMonth (createBookingCore db req e).2 m =
      countActiveForMonth db m +
        (if strOrNull req.bookingMonth = some m then 1 else 0) := by
  unfold createBookingCore
  rw [countActiveForMonth_insertProject,
      countActiveForMonth_eq_of_projects db
        (clientFindOrCreate db req.clientName req.clientEmail).2 m
        (clientFindOrCreate_projects db req.clientName req.clientEmail)]
  have hst : (ProjectStatus.pending ≠ ProjectStatus.cancelled) := by decide
  simp [buildProjectData, hst]

/-- The creation tail appends exactly one project row. -/
theorem createBookingCore_projects_length (db : DB) (req : BookingRequest)
    (e : Bool) :
    (createBookingCore db req e).2.projects.length = db.projects.length + 1 := by
  unfold createBookingCore insertProject
  rw [List.length_append,
      clientFindOrCreate_projects db req.clientName req.clientEmail]
  rfl

/-- The creation tail never touches the clients table when the client
already exists. -/
theorem createBookingCore_of_found (db : DB) (req : BookingRequest) (e : Bool)
    (c0 : Client) (h : findClientByEmail db req.clientEmail = some c0) :
    createBookingCore db req e =
      (BookingResult.created (buildProjectData db c0 req).id c0.id e,
       insertProject db (buildProjectData db c0 req)) := by
  unfold createBookingCore
  rw [clientFindOrCreate_found db req.clientName req.clientEmail c0 h]

/-- The empty string never matches the email regex. -/
theorem emailRegexTest_empty : emailRegexTest "" = false := by decide

/-- Updating a project's status commutes with looking it up: the looked-up
row is the old row with the new status. -/
theorem find?_status_update (l : List Project) (id : Nat) (s : ProjectStatus) :
    (l.map (fun p => if p.id = id then { p with status := s } else p)).find?
        (fun p => decide (p.id = id)) =
      (l.find? (fun p => decide (p.id = id))).map
        (fun p => { p with status := s }) := by
  induction l with
  | nil => rfl
  | cons a t ih =>
    by_cases h : a.id = id
    · simp [List.find?_cons, h]
    · simp [List.find?_cons, h, ih]

/-- `findByPk` after an unconditional status update. -/
theorem findProject_updateProjectStatus (db : DB) (id : Nat) (s : ProjectStatus) :
    findProject (updateProjectStatus db id s) id =
      (findProject db id).map (fun p => { p with status := s }) := by
  unfold findProject updateProjectStatus
  exact find?_status_update db.projects id s

/-! ### Claim theorems -/

/-- Claim C1, counterexample: starting from the empty store, four bookings
of real projects for month "m" succeed (filling the month to its capacity
of 4) and then a fifth booking of projectType 'service-only' naming the
same month ALSO succeeds, because the capacity check of POST / in
src/unnamed/part_003 is skipped for service-only bookings — after which
month "m" holds 5 non-cancelled Projects, exceeding the capacity of 4.
This refutes the claim that the count never exceeds 4 after any sequence
of successful CreateBooking calls. -/
theorem C1_counterexample :
    c1S1.1 = BookingResult.created 1 1 true ∧
    c1S2.1 = BookingResult.created 2 2 true ∧
    c1S3.1 = BookingResult.created 3 3 true ∧
    c1S4.1 = BookingResult.created 4 4 true ∧
    c1S5.1 = BookingResult.created 5 5 true ∧
    countActiveForMonth c1S5.2 "m" = 5 := by decide

/-- Claim C2 (code bug): POST /confirm of src/routes/payments.js, called
for the declined project 1, creates a Payment row with paymentStatus
'completed' for it; and after a subsequent decline the store holds a
declined Project together with a completed Payment for it — refuting the
guarantee that no completed Payment ever exists for a declined Project. -/
theorem C2_bug :
    (findProject c2Db 1).map Project.status = some ProjectStatus.declined ∧
    c2Db1.payments.countP
      (fun p => decide (p.projectId = 1 ∧
        p.paymentStatus = PaymentStatus.completed)) = 1 ∧
    (findProject c2Db2 1).map Project.status = some ProjectStatus.declined ∧
    c2Db2.payments.countP
      (fun p => decide (p.projectId = 1 ∧
        p.paymentStatus = PaymentStatus.completed)) = 1 := by decide

/-- Claim C3 (code bug): neither 'declined' nor 'cancelled' is absorbing.
POST /:id/approve of src/routes/bookings.js moves the declined project 1
and the cancelled project 2 to 'approved', and a succeeded payment
confirmation moves the declined project 3 to 'in_progress', because all
these handlers overwrite the status without checking the previous state. -/
theorem C3_bug :
    (findProject c3Db 1).map Project.status = some ProjectStatus.declined ∧
    (approveBooking c3Db 1).1 = StatusUpdateResult.ok 1 ProjectStatus.approved ∧
    (findProject (approveBooking c3Db 1).2 1).map Project.status =
      some ProjectStatus.approved ∧
    (findProject c3Db 2).map Project.status = some ProjectStatus.cancelled ∧
    (findProject (approveBooking c3Db 2).2 2).map Project.status =
      some ProjectStatus.approved ∧
    (findProject c3Db 3).map Project.status = some ProjectStatus.declined ∧
    (findProject (confirmPayment c3Db (some "pi_3") (some 3) "succeeded").2 3).map
      Project.status = some ProjectStatus.in_progress := by decide

/-- Claim C4 (code bug): a succeeded payment outcome for project 1, which
is still 'pending' (never approved), is processed by POST /confirm with
paymentStatus 'completed' and silently advances the project to
'in_progress' — the code never looks at the project's current status. -/
theorem C4_bug :
    (findProject c4Db 1).map Project.status = some ProjectStatus.pending ∧
    (confirmPayment c4Db (some "pi_4") (some 1) "succeeded").1 =
      ConfirmResult.processed PaymentStatus.completed ProjectStatus.in_progress ∧
    (findProject (confirmPayment c4Db (some "pi_4") (some 1) "succeeded").2 1).map
      Project.status = some ProjectStatus.in_progress := by decide

/-- Claim C5 (code bug): POST /confirm of src/routes/payments.js calls
`Payment.create` on every delivery, so redelivering the same
gatewayReference "pi_5" leaves TWO completed Payment rows for it — the
operation is not idempotent.  (The intent-based confirm route, which
updates the row found by stripePaymentId, does keep a single row, shown by
the last conjunct.) -/
theorem C5_bug :
    c5Db.payments.length = 0 ∧
    c5Db2.payments.length = 2 ∧
    c5Db2.payments.countP
      (fun p => decide (p.stripePaymentId = some "pi_5" ∧
        p.paymentStatus = PaymentStatus.completed)) = 2 ∧
    c5I2.2.payments.length = 1 := by decide

/-- Claim C6: a CreateBooking request with a missing/empty clientName or
clientEmail, or a clientEmail not matching the email regex, is rejected
with a 400 validation error by both observed POST / variants, and the
store is left completely untouched — no Client and no Project row is
created. -/
theorem C6_validation (db : DB) (req : BookingRequest) (c e : Bool)
    (h : req.clientName = "" ∨ req.clientEmail = "" ∨
         emailRegexTest req.clientEmail = false) :
    ((createBooking db req e).1.isValidationError = true ∧
     (createBooking db req e).1.httpStatus = 400 ∧
     (createBooking db req e).2 = db) ∧
    ((createBookingChecked db req c e).1.isValidationError = true ∧
     (createBookingChecked db req c e).1.httpStatus = 400 ∧
     (createBookingChecked db req c e).2 = db) := by
  by_cases hv : req.clientName = "" ∨ req.clientEmail = ""
  · unfold createBooking createBookingChecked
    rw [if_pos hv, if_pos hv]
    exact ⟨⟨rfl, rfl, rfl⟩, rfl, rfl, rfl⟩
  · have hreg : emailRegexTest req.clientEmail = false := by tauto
    unfold createBooking createBookingChecked
    rw [if_neg hv, if_neg hv, if_neg (by simp [hreg]), if_neg (by simp [hreg])]
    exact ⟨⟨rfl, rfl, rfl⟩, rfl, rfl, rfl⟩

/-- Witness for C6: the request with clientEmail "not-an-email" is
rejected by both variants and the empty store stays empty. -/
theorem C6_validation_witness :
    (c6Req.clientName = "" ∨ c6Req.clientEmail = "" ∨
       emailRegexTest c6Req.clientEmail = false) ∧
    (((createBooking emptyDB c6Req true).1.isValidationError = true ∧
      (createBooking emptyDB c6Req true).1.httpStatus = 400 ∧
      (createBooking emptyDB c6Req true).2 = emptyDB) ∧
     ((createBookingChecked emptyDB c6Req false true).1.isValidationError = true ∧
      (createBookingChecked emptyDB c6Req false true).1.httpStatus = 400 ∧
      (createBookingChecked emptyDB c6Req false true).2 = emptyDB)) :=
  ⟨by decide, C6_validation emptyDB c6Req false true (by decide)⟩

/-- Claim C8, counterexample: with month "m" already holding four
non-cancelled Projects, the GET /availability/:month variant of
src/routes/bookings.js still answers available = true with
currentBookings = 0, not the actual count of 4 with available = false
demanded by the claim. -/
theorem C8_counterexample :
    countActiveForMonth c8Db "m" = 4 ∧
    (checkAvailabilityUnlimited c8Db "m").1.available = true ∧
    (checkAvailabilityUnlimited c8Db "m").1.currentBookings = 0 := by decide

/-- Claim C8, amended: both availability variants are pure reads (the
store is returned unchanged); the counting variant of
src/unnamed/part_003 returns the count of non-cancelled Projects of the
month and available = count < 4 against a capacity of 4, whereas the
variant of src/routes/bookings.js always answers available = true with
currentBookings = 0 regardless of stored state. -/
theorem C8_amended (db : DB) (m : String) :
    ((checkAvailability db m false).1.available =
        decide (countActiveForMonth db m < 4) ∧
     (checkAvailability db m false).1.currentBookings =
        countActiveForMonth db m ∧
     (checkAvailability db m false).1.maxBookings = 4 ∧
     (checkAvailability db m false).2 = db) ∧
    ((checkAvailabilityUnlimited db m).1.available = true ∧
     (checkAvailabilityUnlimited db m).1.currentBookings = 0 ∧
     (checkAvailabilityUnlimited db m).2 = db) := by
  exact ⟨⟨rfl, rfl, rfl, rfl⟩, rfl, rfl, rfl⟩

/-- A request whose name is nonempty and whose email matches the regex
passes the missing-fields check (the regex only matches nonempty strings). -/
theorem not_missing_of_valid (req : BookingRequest)
    (hname : req.clientName ≠ "")
    (hemail : emailRegexTest req.clientEmail = true) :
    ¬(req.clientName = "" ∨ req.clientEmail = "") := by
  rintro (h | h)
  · exact hname h
  · rw [h, emailRegexTest_empty] at hemail
    exact Bool.noConfusion hemail

/-- Claim C7: when a Client with the request's email already exists,
CreateBooking leaves the clients table exactly as it was (so no duplicate
Client row is created and the stored name is not overwritten), the email
still resolves to the same Client row afterwards, and a successful
creation reports that existing Client's id. -/
theorem C7_client_reuse (db : DB) (req : BookingRequest) (e : Bool)
    (c0 : Client) (hfind : findClientByEmail db req.clientEmail = some c0) :
    (createBooking db req e).2.clients = db.clients ∧
    findClientByEmail (createBooking db req e).2 req.clientEmail = some c0 ∧
    ∀ pid cid es,
      (createBooking db req e).1 = BookingResult.created pid cid es →
        cid = c0.id := by
  unfold createBooking
  by_cases hv : req.clientName = "" ∨ req.clientEmail = ""
  · rw [if_pos hv]
    exact ⟨rfl, hfind, fun pid cid es hres => by simp at hres⟩
  · rw [if_neg hv]
    by_cases hreg : emailRegexTest req.clientEmail = true
    · rw [if_pos hreg, createBookingCore_of_found db req e c0 hfind]
      refine ⟨rfl, hfind, ?_⟩
      intro pid cid es hres
      cases hres
      rfl
    · rw [if_neg hreg]
      exact ⟨rfl, hfind, fun pid cid es hres => by simp at hres⟩

/-- Witness for C7: a repeat booking from the email of the existing client
7 (under the different name "Grace") leaves the clients table unchanged
and reports client id 7. -/
theorem C7_client_reuse_witness :
    findClientByEmail c7Db c7Req.clientEmail = some c7Client ∧
    ((createBooking c7Db c7Req true).2.clients = c7Db.clients ∧
     findClientByEmail (createBooking c7Db c7Req true).2 c7Req.clientEmail =
       some c7Client ∧
     ∀ pid cid es,
       (createBooking c7Db c7Req true).1 = BookingResult.created pid cid es →
         cid = c7Client.id) :=
  ⟨by decide, C7_client_reuse c7Db c7Req true c7Client (by decide)⟩

/-- Claim C9: failure of the notification email never fails or rolls back
the state change of record.  For CreateBooking, a run with the email
throwing produces the same store as a run with the email succeeding and
still answers 201 with the same project and client ids, only with
emailSent = false.  For the approve and decline routes of src/server.js,
after the status update succeeds, an email failure still yields a
success response carrying the new status with emailSent = false, and the
project keeps its new status. -/
theorem C9_email_failure (db : DB) (req : BookingRequest) (pid cid : Nat)
    (es : Bool) (db2 : DB) (id2 : Nat) (p2 : Project)
    (hcreated : (createBooking db req true).1 = BookingResult.created pid cid es)
    (hfind : findProject db2 id2 = some p2) :
    (createBooking db req false).1 = BookingResult.created pid cid false ∧
    (createBooking db req false).2 = (createBooking db req true).2 ∧
    (serverStatusRoute db2 id2 ProjectStatus.approved true false).1 =
      ServerRouteResult.ok ProjectStatus.approved false ∧
    findProject (serverStatusRoute db2 id2 ProjectStatus.approved true false).2
        id2 = some { p2 with status := ProjectStatus.approved } ∧
    (serverStatusRoute db2 id2 ProjectStatus.declined true false).1 =
      ServerRouteResult.ok ProjectStatus.declined false ∧
    findProject (serverStatusRoute db2 id2 ProjectStatus.declined true false).2
        id2 = some { p2 with status := ProjectStatus.declined } := by
  refine ⟨?_, ?_, ?_, ?_, ?_, ?_⟩
  · unfold createBooking at hcreated ⊢
    by_cases hv : req.clientName = "" ∨ req.clientEmail = ""
    · rw [if_pos hv] at hcreated
      simp at hcreated
    · rw [if_neg hv] at hcreated ⊢
      by_cases hreg : emailRegexTest req.clientEmail = true
      · rw [if_pos hreg] at hcreated ⊢
        simp [createBookingCore] at hcreated ⊢
        exact ⟨hcreated.1, hcreated.2.1⟩
      · rw [if_neg hreg] at hcreated
        simp at hcreated
  · unfold createBooking
    by_cases hv : req.clientName = "" ∨ req.clientEmail = ""
    · rw [if_pos hv, if_pos hv]
    · rw [if_neg hv, if_neg hv]
      by_cases hreg : emailRegexTest req.clientEmail = true
      · rw [if_pos hreg, if_pos hreg]
        rfl
      · rw [if_neg hreg, if_neg hreg]
  · simp [serverStatusRoute, hfind]
  · have h2 : (serverStatusRoute db2 id2 ProjectStatus.approved true false).2 =
        updateProjectStatus db2 id2 ProjectStatus.approved := by
      simp [serverStatusRoute, hfind]
    rw [h2, findProject_updateProjectStatus, hfind]
    rfl
  · simp [serverStatusRoute, hfind]
  · have h2 : (serverStatusRoute db2 id2 ProjectStatus.declined true false).2 =
        updateProjectStatus db2 id2 ProjectStatus.declined := by
      simp [serverStatusRoute, hfind]
    rw [h2, findProject_updateProjectStatus, hfind]
    rfl

/-- Witness for C9: the valid request `c9Req` against the empty store, and
the pending project 3 in `c9Db`. -/
theorem C9_email_failure_witness :
    ((createBooking emptyDB c9Req true).1 = BookingResult.created 1 1 true ∧
     findProject c9Db 3 = some c9Proj) ∧
    ((createBooking emptyDB c9Req false).1 = BookingResult.created 1 1 false ∧
     (createBooking emptyDB c9Req false).2 = (createBooking emptyDB c9Req true).2 ∧
     (serverStatusRoute c9Db 3 ProjectStatus.approved true false).1 =
       ServerRouteResult.ok ProjectStatus.approved false ∧
     findProject (serverStatusRoute c9Db 3 ProjectStatus.approved true false).2 3 =
       some { c9Proj with status := ProjectStatus.approved } ∧
     (serverStatusRoute c9Db 3 ProjectStatus.declined true false).1 =
       ServerRouteResult.ok ProjectStatus.declined false ∧
     findProject (serverStatusRoute c9Db 3 ProjectStatus.declined true false).2 3 =
       some { c9Proj with status := ProjectStatus.declined }) :=
  ⟨⟨by decide, by decide⟩,
   C9_email_failure emptyDB c9Req 1 1 true c9Db 3 c9Proj (by decide) (by decide)⟩

/-- Claim C10: the capacity machinery fails open on infrastructure error.
When the count query of POST / (src/unnamed/part_003) throws, the handler
behaves exactly like the unchecked creation path — the booking proceeds
and a Project row is appended even if the month is full; and when the
count query of GET /availability/:month throws, the response is 200 with
available = true and currentBookings = 0 and the store is untouched. -/
theorem C10_fail_open (db : DB) (req : BookingRequest) (e : Bool) (m : String)
    (hname : req.clientName ≠ "")
    (hemail : emailRegexTest req.clientEmail = true) :
    createBookingChecked db req true e = createBookingCore db req e ∧
    (createBookingChecked db req true e).2.projects.length =
      db.projects.length + 1 ∧
    (checkAvailability db m true).1 =
      { available := true, currentBookings := 0, month := m,
        maxBookings := 4 } ∧
    (checkAvailability db m true).2 = db := by
  have hval := not_missing_of_valid req hname hemail
  have hfirst : createBookingChecked db req true e = createBookingCore db req e := by
    unfold createBookingChecked
    rw [if_neg hval, if_pos hemail]
    cases hpt : req.projectType with
    | none => rfl
    | some pt =>
      cases hbm : req.bookingMonth with
      | none => rfl
      | some mb =>
        dsimp only
        by_cases hc : pt ≠ "" ∧ pt ≠ "service-only" ∧ mb ≠ ""
        · rw [if_pos hc]
          rfl
        · rw [if_neg hc]
  refine ⟨hfirst, ?_, rfl, rfl⟩
  rw [hfirst]
  exact createBookingCore_projects_length db req e

/-- Witness for C10: month "m" of `c10Db` is over capacity (five
non-cancelled projects), yet with the count query throwing, the real
project request `c10Req` still goes through the unchecked creation path. -/
theorem C10_fail_open_witness :
    (c10Req.clientName ≠ "" ∧ emailRegexTest c10Req.clientEmail = true) ∧
    (createBookingChecked c10Db c10Req true true =
       createBookingCore c10Db c10Req true ∧
     (createBookingChecked c10Db c10Req true true).2.projects.length =
       c10Db.projects.length + 1 ∧
     (checkAvailability c10Db "m" true).1 =
       { available := true, currentBookings := 0, month := "m",
         maxBookings := 4 } ∧
     (checkAvailability c10Db "m" true).2 = c10Db) :=
  ⟨⟨by decide, by decide⟩,
   C10_fail_open c10Db c10Req true "m" (by decide) (by decide)⟩

/-- Claim C1, amended: in the counting variant of POST /
(src/unnamed/part_003), restricted to CreateBooking calls for real (non
service-only) projects whose availability count query succeeds, the
capacity invariant holds: a month at or over the capacity of 4 rejects any
further real booking naming it with the capacity error reporting
current/4 and an unchanged store, and a month holding at most 4
non-cancelled Projects still holds at most 4 after any such call.
(Service-only bookings, and the POST / variant of src/routes/bookings.js
which has no capacity check at all, can push a month beyond 4, as the
counterexample shows.) -/
theorem C1_amended (db : DB) (req : BookingRequest) (pt m : String) (e : Bool)
    (hpt : req.projectType = some pt) (hpt1 : pt ≠ "")
    (hpt2 : pt ≠ "service-only") (hname : req.clientName ≠ "")
    (hemail : emailRegexTest req.clientEmail = true) :
    (countActiveForMonth db m ≤ 4 →
      countActiveForMonth (createBookingChecked db req false e).2 m ≤ 4) ∧
    (req.bookingMonth = some m → m ≠ "" → 4 ≤ countActiveForMonth db m →
      (createBookingChecked db req false e).1 =
        BookingResult.capacityError (countActiveForMonth db m) 4 ∧
      (createBookingChecked db req false e).2 = db) := by
  have hval := not_missing_of_valid req hname hemail
  unfold createBookingChecked
  rw [if_neg hval, if_pos hemail, hpt]
  cases hbm : req.bookingMonth with
  | none =>
    dsimp only
    constructor
    · intro hcount
      rw [countActiveForMonth_core]
      have hsn : strOrNull req.bookingMonth = none := by simp [hbm, strOrNull]
      rw [hsn, if_neg (by simp : ¬((none : Option String) = some m))]
      omega
    · intro hbm'
      exact absurd hbm' (by simp)
  | some mb =>
    dsimp only
    by_cases hc : pt ≠ "" ∧ pt ≠ "service-only" ∧ mb ≠ ""
    · rw [if_pos hc, if_neg (by simp : ¬(false = true))]
      by_cases hge : 4 ≤ countActiveForMonth db mb
      · rw [if_pos hge]
        constructor
        · intro hcount
          exact hcount
        · intro hbm' hm hge'
          have hmm : mb = m := Option.some.inj hbm'
          subst hmm
          exact ⟨rfl, rfl⟩
      · rw [if_neg hge]
        constructor
        · intro hcount
          rw [countActiveForMonth_core]
          have hsn : strOrNull req.bookingMonth = some mb := by
            simp [hbm, strOrNull, hc.2.2]
          rw [hsn]
          by_cases hmm : mb = m
          · subst hmm
            rw [if_pos rfl]
            omega
          · rw [if_neg (fun h => hmm (Option.some.inj h))]
            omega
        · intro hbm' hm hge'
          have hmm : mb = m := Option.some.inj hbm'
          subst hmm
          exact absurd hge' hge
    · have hmb : mb = "" := by
        by_contra hne
        exact hc ⟨hpt1, hpt2, hne⟩
      rw [if_neg hc]
      constructor
      · intro hcount
        rw [countActiveForMonth_core]
        have hsn : strOrNull req.bookingMonth = none := by
          simp [hbm, hmb, strOrNull]
        rw [hsn, if_neg (by simp : ¬((none : Option String) = some m))]
        omega
      · intro hbm' hm hge'
        have hmm : mb = m := Option.some.inj hbm'
        rw [hmm] at hmb
        exact absurd hmb hm

/-- Witness for C1 (amended): against the store `c1S4.2`, in which month
"m" already holds four non-cancelled projects, a further real-project
booking request keeps the count at 4 and is rejected with the capacity
error 4/4. -/
theorem C1_amended_witness :
    ((c1Req "f@x.co" "landing").projectType = some "landing" ∧
     "landing" ≠ "" ∧ "landing" ≠ "service-only" ∧
     (c1Req "f@x.co" "landing").clientName ≠ "" ∧
     emailRegexTest (c1Req "f@x.co" "landing").clientEmail = true) ∧
    ((countActiveForMonth c1S4.2 "m" ≤ 4 →
       countActiveForMonth
         (createBookingChecked c1S4.2 (c1Req "f@x.co" "landing") false true).2
         "m" ≤ 4) ∧
     ((c1Req "f@x.co" "landing").bookingMonth = some "m" → "m" ≠ "" →
       4 ≤ countActiveForMonth c1S4.2 "m" →
       (createBookingChecked c1S4.2 (c1Req "f@x.co" "landing") false true).1 =
         BookingResult.capacityError (countActiveForMonth c1S4.2 "m") 4 ∧
       (createBookingChecked c1S4.2 (c1Req "f@x.co" "landing") false true).2 =
         c1S4.2)) :=
  ⟨⟨rfl, by decide, by decide, by decide, by decide⟩,
   C1_amended c1S4.2 (c1Req "f@x.co" "landing") "landing" "m" true rfl
     (by decide) (by decide) (by decide) (by decide)⟩

end CocoaCode
